import Mathlib

/-!
Verification of the slab-ocean wind-stress filter from
`020_run_slab_model.ipynb` (Pollard–Millard / d'Asaro recursive model).

The notebook's `filter_windstress` function derives complex filter
coefficients per grid point, fills missing wind-stress samples with zero,
runs a two-step complex recursion (`integrate`, a numba kernel) along the
time axis, masks the result where the filled wind stress is zero and near
the equator, and returns the real part, the imaginary part and the speed.

Floating-point numbers of the source are modelled as real (`ℝ`) and
complex (`ℂ`) numbers; xarray's NaN-masked arrays are modelled as
`Option`-valued series (`none` = missing / invalid).
-/

namespace SlabModel

/-- The numba kernel `integrate` of `filter_windstress`:
`q = np.zeros_like(T)` and, for `l` from 2 upward,
`q[l] = d_1[l-1]*q[l-1] + d_2[l-2]*q[l-2] + c_0[l]*T[l] + c_2[l-2]*T[l-2]`.
All five arrays are indexed along the time axis; entries `q[0]` and `q[1]`
are never written and stay zero.  The array length only bounds which
entries exist; values at index `l` never read beyond index `l`, so the
kernel is modelled as a total function on time indices. -/
def integrate (T d_1 d_2 c_0 c_2 : ℕ → ℂ) : ℕ → ℂ
  | 0 => 0
  | 1 => 0
  | l + 2 =>
      d_1 (l + 1) * integrate T d_1 d_2 c_0 c_2 (l + 1)
      + d_2 l * integrate T d_1 d_2 c_0 c_2 l
      + c_0 (l + 2) * T (l + 2)
      + c_2 l * T l

/-- The kernel applied to a finite series, as the notebook does:
the output array has the same length as the input `T`. -/
def integrateList (T : List ℂ) (d_1 d_2 c_0 c_2 : ℕ → ℂ) : List ℂ :=
  (List.range T.length).map (integrate (fun m => T.getD m 0) d_1 d_2 c_0 c_2)

theorem integrate_zero (T d_1 d_2 c_0 c_2 : ℕ → ℂ) :
    integrate T d_1 d_2 c_0 c_2 0 = 0 := by
  simp [integrate]

theorem integrate_one (T d_1 d_2 c_0 c_2 : ℕ → ℂ) :
    integrate T d_1 d_2 c_0 c_2 1 = 0 := by
  simp [integrate]

theorem integrate_add_two (T d_1 d_2 c_0 c_2 : ℕ → ℂ) (l : ℕ) :
    integrate T d_1 d_2 c_0 c_2 (l + 2)
      = d_1 (l + 1) * integrate T d_1 d_2 c_0 c_2 (l + 1)
        + d_2 l * integrate T d_1 d_2 c_0 c_2 l
        + c_0 (l + 2) * T (l + 2)
        + c_2 l * T l := by
  rw [integrate]

end SlabModel

namespace SlabModel

/-- `np.deg2rad`: degrees to radians. -/
noncomputable def deg2rad (x : ℝ) : ℝ := x * (Real.pi / 180)

/-- The Coriolis parameter generated from the latitude coordinate when no
explicit `f` is passed: `f = 2 * 7.2921e-5 * np.sin(np.deg2rad(lat))`. -/
noncomputable def coriolis (lat : ℝ) : ℝ := 2 * 7.2921e-5 * Real.sin (deg2rad lat)

/-- `if f is None: f = 2 * 7.2921e-5 * np.sin(np.deg2rad(lat))`:
the per-point Coriolis parameter, derived from latitude unless supplied. -/
noncomputable def coriolisOrGiven (lat : ℝ) (fGiven : Option ℝ) : ℝ :=
  fGiven.getD (coriolis lat)

/-- `T = taux + 1j * tauy`: the complex wind stress; a sample is missing
(`isnull`) when either real component is missing. -/
def Tcomplex (taux tauy : ℕ → Option ℝ) (l : ℕ) : Option ℂ :=
  match taux l, tauy l with
  | some x, some y => some ⟨x, y⟩
  | _, _ => none

/-- `T = xr.where(~T.isnull(), T, 0)`: missing samples replaced by 0. -/
def Tfilled (taux tauy : ℕ → Option ℝ) (l : ℕ) : ℂ :=
  (Tcomplex taux tauy l).getD 0

/-- `c_0 = - 1 / (epsilon + 1j * f) / rho / H`. -/
noncomputable def c_0 (epsilon rho H f : ℝ) : ℂ :=
  -1 / ((epsilon : ℂ) + Complex.I * (f : ℂ)) / (rho : ℂ) / (H : ℂ)

/-- `c_2 = - c_0`. -/
noncomputable def c_2 (epsilon rho H f : ℝ) : ℂ := - c_0 epsilon rho H f

/-- `d_1 = - 2j * f * dt`. -/
def d_1 (f dt : ℝ) : ℂ := -2 * Complex.I * (f : ℂ) * (dt : ℂ)

/-- `d_2 = 1 - 2 * epsilon * dt`. -/
def d_2 (epsilon dt : ℝ) : ℂ := 1 - 2 * (epsilon : ℂ) * (dt : ℂ)

/-- The kernel applied to the filled wind stress with the per-point
coefficients broadcast as constants along the time axis
(`xr.broadcast(xr.DataArray(c_0), T)[0]` etc., then `integrate`). -/
noncomputable def q_integrated (epsilon rho H dt lat : ℝ) (fGiven : Option ℝ)
    (taux tauy : ℕ → Option ℝ) : ℕ → ℂ :=
  integrate (Tfilled taux tauy)
    (fun _ => d_1 (coriolisOrGiven lat fGiven) dt)
    (fun _ => d_2 epsilon dt)
    (fun _ => c_0 epsilon rho H (coriolisOrGiven lat fGiven))
    (fun _ => c_2 epsilon rho H (coriolisOrGiven lat fGiven))

/-- `q = q.where(xr.ufuncs.logical_not(T == 0))`: mask the output where
the filled wind stress is zero (`none` models NaN). -/
noncomputable def q_mask_data (epsilon rho H dt lat : ℝ) (fGiven : Option ℝ)
    (taux tauy : ℕ → Option ℝ) (l : ℕ) : Option ℂ :=
  if Tfilled taux tauy l = 0 then none
  else some (q_integrated epsilon rho H dt lat fGiven taux tauy l)

/-- `q = q.where(abs(q.coords["lat"]) > 4.0)`: mask everything at points
within 4 degrees of the equator. -/
noncomputable def q_masked (epsilon rho H dt lat : ℝ) (fGiven : Option ℝ)
    (taux tauy : ℕ → Option ℝ) (l : ℕ) : Option ℂ :=
  if 4 < |lat| then q_mask_data epsilon rho H dt lat fGiven taux tauy l
  else none

/-- `slab_u = xr.ufuncs.real(q)`: NaN in `q` propagates to `slab_u`. -/
noncomputable def slab_u (epsilon rho H dt lat : ℝ) (fGiven : Option ℝ)
    (taux tauy : ℕ → Option ℝ) (l : ℕ) : Option ℝ :=
  (q_masked epsilon rho H dt lat fGiven taux tauy l).map Complex.re

/-- `slab_v = xr.ufuncs.imag(q)`: NaN in `q` propagates to `slab_v`. -/
noncomputable def slab_v (epsilon rho H dt lat : ℝ) (fGiven : Option ℝ)
    (taux tauy : ℕ → Option ℝ) (l : ℕ) : Option ℝ :=
  (q_masked epsilon rho H dt lat fGiven taux tauy l).map Complex.im

/-- `slab_umag = (slab_u**2 + slab_v**2)**0.5`: NaN in either component
propagates to the speed. -/
noncomputable def slab_umag (epsilon rho H dt lat : ℝ) (fGiven : Option ℝ)
    (taux tauy : ℕ → Option ℝ) (l : ℕ) : Option ℝ :=
  match slab_u epsilon rho H dt lat fGiven taux tauy l,
      slab_v epsilon rho H dt lat fGiven taux tauy l with
  | some u, some v => some ((u ^ 2 + v ^ 2) ^ (0.5 : ℝ))
  | _, _ => none

/-- `taux.time.diff("time")`: consecutive differences of the time axis
(nanoseconds, as floats). -/
def timeDiffs (times : List ℝ) : List ℝ :=
  List.zipWith (fun b a => b - a) times.tail times

/-- `numpy` mean of a series. -/
noncomputable def listMean (xs : List ℝ) : ℝ := xs.sum / xs.length

/-- `numpy` standard deviation of a series:
`sqrt(mean((x - mean(x))^2))`. -/
noncomputable def listStd (xs : List ℝ) : ℝ :=
  Real.sqrt (listMean (xs.map (fun x => (x - listMean xs) ^ 2)))

/-- `dt = (taux.time.diff("time").astype("float").mean("time") / 1e9).data`:
the single scalar timestep, converted from nanoseconds to seconds. -/
noncomputable def dtSeconds (times : List ℝ) : ℝ :=
  listMean (timeDiffs times) / 1e9

/-- `filter_windstress`: asserts
`taux.time.diff("time").astype("float").std("time") / 1e9 < 1e-4`
(modelled as `Except.error ()` when the assertion fails), then runs the
coefficient derivation, integration, masking and output extraction with
the single timestep `dtSeconds times`. -/
noncomputable def filter_windstress (times : List ℝ) (taux tauy : ℕ → Option ℝ)
    (epsilon rho H : ℝ) (fGiven : Option ℝ) (lat : ℝ) :
    Except Unit ((ℕ → Option ℝ) × (ℕ → Option ℝ) × (ℕ → Option ℝ)) :=
  if listStd (timeDiffs times) / 1e9 < 1e-4 then
    Except.ok
      (slab_u epsilon rho H (dtSeconds times) lat fGiven taux tauy,
        slab_v epsilon rho H (dtSeconds times) lat fGiven taux tauy,
        slab_umag epsilon rho H (dtSeconds times) lat fGiven taux tauy)
  else Except.error ()

/-- C1: for every wind-stress series and per-point coefficient set held
constant across time, the kernel output satisfies `q 0 = q 1 = 0`
regardless of `T 0`, `T 1`, and for every `l` with `2 ≤ l ≤ n - 1`,
`q l = d1 * q (l-1) + d2 * q (l-2) + c0 * T l + c2 * T (l-2)`. -/
theorem C1_recursion (T : ℕ → ℂ) (c0 c2 d1 d2 : ℂ) (n l : ℕ)
    (h2 : 2 ≤ l) (hn : l ≤ n - 1) :
    integrate T (fun _ => d1) (fun _ => d2) (fun _ => c0) (fun _ => c2) 0 = 0
    ∧ integrate T (fun _ => d1) (fun _ => d2) (fun _ => c0) (fun _ => c2) 1 = 0
    ∧ integrate T (fun _ => d1) (fun _ => d2) (fun _ => c0) (fun _ => c2) l
      = d1 * integrate T (fun _ => d1) (fun _ => d2) (fun _ => c0) (fun _ => c2) (l - 1)
        + d2 * integrate T (fun _ => d1) (fun _ => d2) (fun _ => c0) (fun _ => c2) (l - 2)
        + c0 * T l + c2 * T (l - 2) := by
  refine ⟨integrate_zero _ _ _ _ _, integrate_one _ _ _ _ _, ?_⟩
  obtain ⟨m, rfl⟩ : ∃ m, l = m + 2 := ⟨l - 2, by omega⟩
  have h1 : m + 2 - 1 = m + 1 := by omega
  have h0 : m + 2 - 2 = m := by omega
  rw [h1, h0, integrate_add_two]

/-- Witness for C1 at the concrete series `T l = l`, coefficients
`(3, 5, 7, 11)`, `n = 4`, `l = 2`. -/
theorem C1_recursion_witness :
    integrate (fun l => (l : ℂ)) (fun _ => 7) (fun _ => 11) (fun _ => 3) (fun _ => 5) 0 = 0
    ∧ integrate (fun l => (l : ℂ)) (fun _ => 7) (fun _ => 11) (fun _ => 3) (fun _ => 5) 1 = 0
    ∧ integrate (fun l => (l : ℂ)) (fun _ => 7) (fun _ => 11) (fun _ => 3) (fun _ => 5) 2
      = 7 * integrate (fun l => (l : ℂ)) (fun _ => 7) (fun _ => 11) (fun _ => 3) (fun _ => 5) (2 - 1)
        + 11 * integrate (fun l => (l : ℂ)) (fun _ => 7) (fun _ => 11) (fun _ => 3) (fun _ => 5) (2 - 2)
        + 3 * ((2 : ℕ) : ℂ) + 5 * (((2 : ℕ) - 2 : ℕ) : ℂ) :=
  C1_recursion (fun l => (l : ℂ)) 3 5 7 11 4 2 (by decide) (by decide)

/-- C6: if every input sample is zero then every output of the recursion
is zero (zero input is a fixed point of the filter), for any
time-indexed coefficient arrays. -/
theorem C6_zero_forcing (T d_1 d_2 c_0 c_2 : ℕ → ℂ)
    (hT : ∀ l, T l = 0) :
    ∀ l, integrate T d_1 d_2 c_0 c_2 l = 0 := by
  intro l
  induction l using Nat.strong_induction_on with
  | _ l ih =>
    match l with
    | 0 => exact integrate_zero _ _ _ _ _
    | 1 => exact integrate_one _ _ _ _ _
    | m + 2 =>
      rw [integrate_add_two, ih (m + 1) (by omega), ih m (by omega), hT, hT]
      ring

/-- Witness for C6 at the all-zero series and coefficients `(2, 3, 4, 5)`,
evaluated at `l = 5`. -/
theorem C6_zero_forcing_witness :
    integrate (fun _ => 0) (fun _ => 2) (fun _ => 3) (fun _ => 4) (fun _ => 5) 5 = 0 :=
  C6_zero_forcing (fun _ => 0) (fun _ => 2) (fun _ => 3) (fun _ => 4) (fun _ => 5)
    (fun _ => rfl) 5

/-- C7: causality.  If two input series agree at every index `≤ l`
(they may differ arbitrarily beyond `l`), the outputs agree at every
index `≤ l`: `q l` depends only on `T m` for `m ≤ l` and prior `q`. -/
theorem C7_causality (T T' d_1 d_2 c_0 c_2 : ℕ → ℂ) (l : ℕ)
    (h : ∀ m, m ≤ l → T m = T' m) :
    ∀ k, k ≤ l → integrate T d_1 d_2 c_0 c_2 k = integrate T' d_1 d_2 c_0 c_2 k := by
  intro k
  induction k using Nat.strong_induction_on with
  | _ k ih =>
    match k with
    | 0 => intro _; rw [integrate_zero, integrate_zero]
    | 1 => intro _; rw [integrate_one, integrate_one]
    | m + 2 =>
      intro hk
      rw [integrate_add_two, integrate_add_two,
        ih (m + 1) (by omega) (by omega), ih m (by omega) (by omega),
        h (m + 2) hk, h m (by omega)]

/-- Witness for C7: the series `T l = l` and `T'` differing only at
index 3 give identical outputs at all indices `≤ 2`. -/
theorem C7_causality_witness :
    integrate (fun l => (l : ℂ)) (fun _ => 2) (fun _ => 3) (fun _ => 4) (fun _ => 5) 2
      = integrate (fun l => if l = 3 then 100 else (l : ℂ))
          (fun _ => 2) (fun _ => 3) (fun _ => 4) (fun _ => 5) 2 :=
  C7_causality (fun l => (l : ℂ)) (fun l => if l = 3 then 100 else (l : ℂ))
    (fun _ => 2) (fun _ => 3) (fun _ => 4) (fun _ => 5) 2
    (fun m hm => by
      interval_cases m <;> norm_num)
    2 le_rfl

/-- C10: for an input series with at most two time steps the loop body of
the kernel never runs and the output is the all-zero series of the same
length as the input. -/
theorem C10_short_series (T : List ℂ) (d_1 d_2 c_0 c_2 : ℕ → ℂ)
    (h : T.length ≤ 2) :
    integrateList T d_1 d_2 c_0 c_2 = List.replicate T.length 0 := by
  match T with
  | [] => simp [integrateList]
  | [a] =>
    simp [integrateList, List.range_succ, integrate_zero]
  | [a, b] =>
    simp [integrateList, List.range_succ, integrate_zero, integrate_one,
      List.replicate]
  | a :: b :: c :: rest => simp at h

/-- Witness for C10 at the concrete two-element series `[37, 5]` with
coefficients all 1. -/
theorem C10_short_series_witness :
    integrateList [(37 : ℂ), 5] (fun _ => 1) (fun _ => 1) (fun _ => 1) (fun _ => 1)
      = List.replicate ([(37 : ℂ), 5]).length 0 :=
  C10_short_series [(37 : ℂ), 5] (fun _ => 1) (fun _ => 1) (fun _ => 1) (fun _ => 1)
    (by simp)

/-- C2: with no explicit `f` supplied, the coefficient set at a point of
latitude `lat` (degrees) is exactly `f = 2 * 7.2921e-5 * sin(lat)` (the
latitude converted to radians), `c0 = -1 / ((ε + i f) ρ H)`, `c2 = -c0`,
`d1 = -2 i f dt`, `d2 = 1 - 2 ε dt`. -/
theorem C2_coefficients (epsilon rho H dt lat : ℝ) :
    coriolisOrGiven lat none = 2 * 7.2921e-5 * Real.sin (deg2rad lat)
    ∧ c_0 epsilon rho H (coriolisOrGiven lat none)
      = -1 / (((epsilon : ℂ) + Complex.I * (coriolisOrGiven lat none : ℂ))
          * (rho : ℂ) * (H : ℂ))
    ∧ c_2 epsilon rho H (coriolisOrGiven lat none)
      = - c_0 epsilon rho H (coriolisOrGiven lat none)
    ∧ d_1 (coriolisOrGiven lat none) dt
      = -2 * Complex.I * ((coriolisOrGiven lat none : ℝ) : ℂ) * (dt : ℂ)
    ∧ d_2 epsilon dt = 1 - 2 * (epsilon : ℂ) * (dt : ℂ) := by
  refine ⟨rfl, ?_, rfl, rfl, rfl⟩
  rw [c_0, div_div, div_div, ← mul_assoc]

/-- C5: every output sample at a point with `|lat| ≤ 4` degrees is
invalid, whatever the wind-stress input; at points with `|lat| > 4` the
equatorial rule changes nothing (the output is whatever the data mask
produced). -/
theorem C5_equatorial_mask (epsilon rho H dt lat : ℝ) (fGiven : Option ℝ)
    (taux tauy : ℕ → Option ℝ) :
    (|lat| ≤ 4 → ∀ l, q_masked epsilon rho H dt lat fGiven taux tauy l = none)
    ∧ (4 < |lat| → ∀ l, q_masked epsilon rho H dt lat fGiven taux tauy l
        = q_mask_data epsilon rho H dt lat fGiven taux tauy l) := by
  constructor
  · intro h l
    rw [q_masked, if_neg (not_lt.mpr h)]
  · intro h l
    rw [q_masked, if_pos h]

/-- Witness for C5 at `lat = 3` (masked) and `lat = 30` (untouched by the
equatorial rule), with valid nonzero wind stress. -/
theorem C5_equatorial_mask_witness :
    q_masked 1 1035 10 3600 3 none (fun _ => some 1) (fun _ => some 2) 0 = none
    ∧ q_masked 1 1035 10 3600 30 none (fun _ => some 1) (fun _ => some 2) 0
      = q_mask_data 1 1035 10 3600 30 none (fun _ => some 1) (fun _ => some 2) 0 :=
  ⟨(C5_equatorial_mask 1 1035 10 3600 3 none _ _).1
      (by rw [show |(3 : ℝ)| = 3 from abs_of_nonneg (by norm_num)]; norm_num) 0,
    (C5_equatorial_mask 1 1035 10 3600 30 none _ _).2
      (by rw [show |(30 : ℝ)| = 30 from abs_of_nonneg (by norm_num)]; norm_num) 0⟩

/-- C9: a valid sample whose two wind-stress components are exactly zero
is not missing (`Tcomplex` is `some 0`), yet the output at that index is
marked invalid, because the post-recursion mask is the predicate `T == 0`
on the zero-filled series. -/
theorem C9_valid_zero_masked (epsilon rho H dt lat : ℝ) (fGiven : Option ℝ)
    (taux tauy : ℕ → Option ℝ) (l : ℕ)
    (hx : taux l = some 0) (hy : tauy l = some 0) :
    Tcomplex taux tauy l = some 0
    ∧ q_masked epsilon rho H dt lat fGiven taux tauy l = none := by
  have hT : Tcomplex taux tauy l = some 0 := by
    unfold Tcomplex
    rw [hx, hy]
    exact congrArg some (Complex.ext rfl rfl)
  refine ⟨hT, ?_⟩
  have hf : Tfilled taux tauy l = 0 := by rw [Tfilled, hT]; rfl
  have hd : q_mask_data epsilon rho H dt lat fGiven taux tauy l = none := by
    rw [q_mask_data, if_pos hf]
  by_cases h4 : 4 < |lat|
  · rw [q_masked, if_pos h4, hd]
  · rw [q_masked, if_neg h4]

/-- Witness for C9: both components valid and zero at index 3, at a
mid-latitude point, and the output there is invalid. -/
theorem C9_valid_zero_masked_witness :
    Tcomplex (fun _ => some 0) (fun _ => some 0) 3 = some 0
    ∧ q_masked 1 1035 10 3600 30 none (fun _ => some 0) (fun _ => some 0) 3 = none :=
  C9_valid_zero_masked 1 1035 10 3600 30 none _ _ 3 rfl rfl

/-- C8: the three output series are derived from the masked complex
series `q` as `u = Re q`, `v = Im q`, `speed = sqrt (u² + v²)`, and each
is valid at an index exactly when `q` is valid there. -/
theorem C8_outputs (epsilon rho H dt lat : ℝ) (fGiven : Option ℝ)
    (taux tauy : ℕ → Option ℝ) (l : ℕ) :
    ((slab_u epsilon rho H dt lat fGiven taux tauy l).isSome
      ↔ (q_masked epsilon rho H dt lat fGiven taux tauy l).isSome)
    ∧ ((slab_v epsilon rho H dt lat fGiven taux tauy l).isSome
      ↔ (q_masked epsilon rho H dt lat fGiven taux tauy l).isSome)
    ∧ ((slab_umag epsilon rho H dt lat fGiven taux tauy l).isSome
      ↔ (q_masked epsilon rho H dt lat fGiven taux tauy l).isSome)
    ∧ ∀ q, q_masked epsilon rho H dt lat fGiven taux tauy l = some q →
        slab_u epsilon rho H dt lat fGiven taux tauy l = some q.re
        ∧ slab_v epsilon rho H dt lat fGiven taux tauy l = some q.im
        ∧ slab_umag epsilon rho H dt lat fGiven taux tauy l
          = some (Real.sqrt (q.re ^ 2 + q.im ^ 2)) := by
  have h05 : (0.5 : ℝ) = 1 / 2 := by norm_num
  cases hq : q_masked epsilon rho H dt lat fGiven taux tauy l with
  | none =>
    refine ⟨?_, ?_, ?_, ?_⟩
    · simp [slab_u, hq]
    · simp [slab_v, hq]
    · simp [slab_umag, slab_u, slab_v, hq]
    · intro q hsome
      simp at hsome
  | some q =>
    refine ⟨?_, ?_, ?_, ?_⟩
    · simp [slab_u, hq]
    · simp [slab_v, hq]
    · simp [slab_umag, slab_u, slab_v, hq]
    · intro q' hsome
      have hqq : q = q' := Option.some.inj hsome
      subst hqq
      have hu : slab_u epsilon rho H dt lat fGiven taux tauy l = some q.re := by
        simp [slab_u, hq]
      have hv : slab_v epsilon rho H dt lat fGiven taux tauy l = some q.im := by
        simp [slab_v, hq]
      refine ⟨hu, hv, ?_⟩
      rw [slab_umag, hu, hv]
      show some ((q.re ^ 2 + q.im ^ 2) ^ (0.5 : ℝ))
        = some (Real.sqrt (q.re ^ 2 + q.im ^ 2))
      rw [h05, ← Real.sqrt_eq_rpow]

/-- Witness for C8: at unit zonal wind stress and `lat = 30`, the output
at index 0 is valid and equals the real and imaginary parts and the
magnitude of the integrated series. -/
theorem C8_outputs_witness :
    slab_u 1 1 1 1 30 none (fun _ => some 1) (fun _ => some 0) 0
      = some ((q_integrated 1 1 1 1 30 none (fun _ => some 1) (fun _ => some 0) 0).re)
    ∧ slab_v 1 1 1 1 30 none (fun _ => some 1) (fun _ => some 0) 0
      = some ((q_integrated 1 1 1 1 30 none (fun _ => some 1) (fun _ => some 0) 0).im)
    ∧ slab_umag 1 1 1 1 30 none (fun _ => some 1) (fun _ => some 0) 0
      = some (Real.sqrt
          ((q_integrated 1 1 1 1 30 none (fun _ => some 1) (fun _ => some 0) 0).re ^ 2
            + (q_integrated 1 1 1 1 30 none (fun _ => some 1) (fun _ => some 0) 0).im ^ 2)) :=
  (C8_outputs 1 1 1 1 30 none _ _ 0).2.2.2 _ (by
    rw [q_masked,
      if_pos (by rw [show |(30 : ℝ)| = 30 from abs_of_nonneg (by norm_num)]; norm_num),
      q_mask_data, if_neg (by simp [Tfilled, Tcomplex, Complex.ext_iff])])

/-- C3: a missing wind-stress sample at index `l` is replaced by zero as
input to the recursion; the recursion itself is applied at every index
with unchanged indices (the same two-step relation holds at every step,
gaps included); the output at `l` is marked invalid; and whether the
whole computation errors never depends on the wind-stress data (missing
data is never raised as an error). -/
theorem C3_missing_data (epsilon rho H dt lat : ℝ) (fGiven : Option ℝ)
    (taux tauy : ℕ → Option ℝ) (l : ℕ)
    (hmiss : Tcomplex taux tauy l = none) :
    Tfilled taux tauy l = 0
    ∧ (∀ k, q_integrated epsilon rho H dt lat fGiven taux tauy (k + 2)
        = d_1 (coriolisOrGiven lat fGiven) dt
            * q_integrated epsilon rho H dt lat fGiven taux tauy (k + 1)
          + d_2 epsilon dt * q_integrated epsilon rho H dt lat fGiven taux tauy k
          + c_0 epsilon rho H (coriolisOrGiven lat fGiven) * Tfilled taux tauy (k + 2)
          + c_2 epsilon rho H (coriolisOrGiven lat fGiven) * Tfilled taux tauy k)
    ∧ q_masked epsilon rho H dt lat fGiven taux tauy l = none
    ∧ ∀ (times : List ℝ) (taux' tauy' : ℕ → Option ℝ),
        (filter_windstress times taux tauy epsilon rho H fGiven lat).isOk
          = (filter_windstress times taux' tauy' epsilon rho H fGiven lat).isOk := by
  have hf : Tfilled taux tauy l = 0 := by rw [Tfilled, hmiss]; rfl
  refine ⟨hf, ?_, ?_, ?_⟩
  · intro k
    simp only [q_integrated]
    rw [integrate_add_two]
  · have hd : q_mask_data epsilon rho H dt lat fGiven taux tauy l = none := by
      rw [q_mask_data, if_pos hf]
    by_cases h4 : 4 < |lat|
    · rw [q_masked, if_pos h4, hd]
    · rw [q_masked, if_neg h4]
  · intro times taux' tauy'
    unfold filter_windstress
    by_cases hstd : listStd (timeDiffs times) / 1e9 < 1e-4
    · rw [if_pos hstd, if_pos hstd]
      rfl
    · rw [if_neg hstd, if_neg hstd]

/-- Witness for C3: wind stress missing exactly at index 2 at a
mid-latitude point; the filled input is zero there, the recursion holds
at the first computed step, the output at 2 is invalid, and the error
status at a concrete time axis is the same as with fully valid data. -/
theorem C3_missing_data_witness :
    Tfilled (fun k => if k = 2 then none else some 1) (fun _ => some 1) 2 = 0
    ∧ q_integrated 1 1035 10 3600 30 none
        (fun k => if k = 2 then none else some 1) (fun _ => some 1) 2
      = d_1 (coriolisOrGiven 30 none) 3600
          * q_integrated 1 1035 10 3600 30 none
              (fun k => if k = 2 then none else some 1) (fun _ => some 1) 1
        + d_2 1 3600 * q_integrated 1 1035 10 3600 30 none
            (fun k => if k = 2 then none else some 1) (fun _ => some 1) 0
        + c_0 1 1035 10 (coriolisOrGiven 30 none)
            * Tfilled (fun k => if k = 2 then none else some 1) (fun _ => some 1) 2
        + c_2 1 1035 10 (coriolisOrGiven 30 none)
            * Tfilled (fun k => if k = 2 then none else some 1) (fun _ => some 1) 0
    ∧ q_masked 1 1035 10 3600 30 none
        (fun k => if k = 2 then none else some 1) (fun _ => some 1) 2 = none
    ∧ (filter_windstress [0, 1, 2]
          (fun k => if k = 2 then none else some 1) (fun _ => some 1)
          1 1035 10 none 30).isOk
      = (filter_windstress [0, 1, 2] (fun _ => some 7) (fun _ => some 8)
          1 1035 10 none 30).isOk := by
  obtain ⟨h1, h2, h3, h4⟩ := C3_missing_data 1 1035 10 3600 30 none
    (fun k => if k = 2 then none else some 1) (fun _ => some 1) 2
    (by simp [Tcomplex])
  exact ⟨h1, h2 0, h3, h4 [0, 1, 2] _ _⟩

lemma timeDiffs_triple (a b c : ℝ) : timeDiffs [a, b, c] = [b - a, c - b] := rfl

lemma listStd_pair (a b : ℝ) : listStd [a, b] = |b - a| / 2 := by
  have h : listMean [a, b] = (a + b) / 2 := by
    unfold listMean
    simp [List.sum_cons]
  have h2 : listMean [(a - (a + b) / 2) ^ 2, (b - (a + b) / 2) ^ 2]
      = ((b - a) / 2) ^ 2 := by
    unfold listMean
    simp [List.sum_cons]
    ring
  unfold listStd
  rw [show ([a, b].map (fun x => (x - listMean [a, b]) ^ 2))
      = [(a - listMean [a, b]) ^ 2, (b - listMean [a, b]) ^ 2] from rfl, h, h2,
    Real.sqrt_sq_eq_abs, abs_div, abs_two]

/-- C4 as amended: the computation fails before producing any output
exactly when the standard deviation of the consecutive time differences,
converted from nanoseconds to seconds, reaches the absolute threshold
`1e-4`; otherwise the mean difference in seconds is the single scalar
timestep used for all coefficients. -/
theorem C4_timestep_absolute (times : List ℝ) (taux tauy : ℕ → Option ℝ)
    (epsilon rho H : ℝ) (fGiven : Option ℝ) (lat : ℝ) :
    (filter_windstress times taux tauy epsilon rho H fGiven lat = Except.error ()
      ↔ 1e-4 ≤ listStd (timeDiffs times) / 1e9)
    ∧ (listStd (timeDiffs times) / 1e9 < 1e-4 →
        filter_windstress times taux tauy epsilon rho H fGiven lat
          = Except.ok
              (slab_u epsilon rho H (dtSeconds times) lat fGiven taux tauy,
                slab_v epsilon rho H (dtSeconds times) lat fGiven taux tauy,
                slab_umag epsilon rho H (dtSeconds times) lat fGiven taux tauy)) := by
  constructor
  · constructor
    · intro herr
      by_contra hlt
      push_neg at hlt
      rw [filter_windstress, if_pos hlt] at herr
      exact Except.noConfusion herr
    · intro hge
      rw [filter_windstress, if_neg (not_lt.mpr hge)]
  · intro hlt
    rw [filter_windstress, if_pos hlt]

/-- Witness for C4: a perfectly uniform hourly time axis (in
nanoseconds) passes the check and the output is produced with the mean
timestep. -/
theorem C4_timestep_absolute_witness :
    filter_windstress [0, 3600e9, 7200e9] (fun _ => some 1) (fun _ => some 2)
        1 1035 10 none 30
      = Except.ok
          (slab_u 1 1035 10 (dtSeconds [0, 3600e9, 7200e9]) 30 none
              (fun _ => some 1) (fun _ => some 2),
            slab_v 1 1035 10 (dtSeconds [0, 3600e9, 7200e9]) 30 none
              (fun _ => some 1) (fun _ => some 2),
            slab_umag 1 1035 10 (dtSeconds [0, 3600e9, 7200e9]) 30 none
              (fun _ => some 1) (fun _ => some 2)) :=
  (C4_timestep_absolute [0, 3600e9, 7200e9] (fun _ => some 1) (fun _ => some 2)
      1 1035 10 none 30).2 (by
    have hd : timeDiffs [0, 3600e9, 7200e9] = [3600e9, 3600e9] := by
      rw [timeDiffs_triple]
      norm_num
    rw [hd, listStd_pair, show (3600e9 - 3600e9 : ℝ) = 0 by ring, abs_zero]
    norm_num)

/-- Counterexample to C4 as stated: on the time axis
`[0, 3600e9, 7200e9 + 2e6]` (hourly spacing in nanoseconds with one step
2 ms longer), the standard deviation of the consecutive differences
relative to the spacing is far below `1e-4`, yet the computation fails:
the source's threshold is `1e-4` seconds absolute, not relative to the
spacing. -/
theorem C4_timestep_counterexample :
    listStd (timeDiffs [0, 3600e9, 7200e9 + 2e6])
        / listMean (timeDiffs [0, 3600e9, 7200e9 + 2e6]) < 1e-4
    ∧ filter_windstress [0, 3600e9, 7200e9 + 2e6] (fun _ => some 1) (fun _ => some 1)
        1 1035 10 none 30 = Except.error () := by
  have hd : timeDiffs [0, 3600e9, 7200e9 + 2e6] = [3600e9, 3600e9 + 2e6] := by
    rw [timeDiffs_triple]
    norm_num
  have hstd : listStd (timeDiffs [0, 3600e9, 7200e9 + 2e6]) = 1e6 := by
    rw [hd, listStd_pair, show (3600e9 + 2e6 - 3600e9 : ℝ) = 2e6 by ring,
      show |(2e6 : ℝ)| = 2e6 from abs_of_nonneg (by norm_num)]
    norm_num
  have hmean : listMean (timeDiffs [0, 3600e9, 7200e9 + 2e6]) = 3600e9 + 1e6 := by
    rw [hd]
    unfold listMean
    simp [List.sum_cons]
    norm_num
  constructor
  · rw [hstd, hmean]
    norm_num
  · rw [filter_windstress, if_neg (by rw [hstd]; norm_num)]

end SlabModel
